import Mathlib

/-!
Verification of the stochastic risk and disease state-update engine of a
micro-simulation of early-childhood disease and food-fortification
interventions.  The relevant Python functions are shallowly embedded as Lean
definitions (continuous quantities become `ℝ` where real-exponent
arithmetic is required, `ℚ` elsewhere; population tables become lists of
rows; stochastic samplers become explicit function arguments), and the
specified properties are settled as theorems about those definitions.
-/

namespace LSFF

/-!
Coverage scale-up model, embedded from
`components/fortification/intervention.py`
(`FolicAcidFortificationIntervention.adjust_coverage_level` and
`adjust_effective_coverage_level`).  Times are measured in years, matching
the `to_years` conversion applied to the clock differences in the source.
-/

/-- Exponential scale-up expression used inside the coverage adjustments:
`c_end - (c_end - c_start) * (1 - r) ** t` for an elapsed time `t` in
years. -/
noncomputable def coverage_scale_up (c_start c_end r t : ℝ) : ℝ :=
  c_end - (c_end - c_start) * (1 - r) ^ t

/-- Embedding of `FolicAcidFortificationIntervention.adjust_coverage_level`:
elapsed time since the intervention start is clamped at zero, and the
incoming `coverage` value is returned unchanged unless the clamped elapsed
time is strictly positive. -/
noncomputable def adjust_coverage_level
    (clock intervention_start coverage c_start c_end r : ℝ) : ℝ :=
  let time_since_intervention_start := max (clock - intervention_start) 0
  if 0 < time_since_intervention_start then
    coverage_scale_up c_start c_end r time_since_intervention_start
  else coverage

/-- Embedding of
`FolicAcidFortificationIntervention.adjust_effective_coverage_level`: the
same computation with the elapsed-time origin shifted forward by the fixed
`delay`. -/
noncomputable def adjust_effective_coverage_level
    (clock intervention_start delay coverage c_start c_end r : ℝ) : ℝ :=
  let time_since_intervention_start :=
    max (clock - (intervention_start + delay)) 0
  if 0 < time_since_intervention_start then
    coverage_scale_up c_start c_end r time_since_intervention_start
  else coverage

lemma coverage_scale_up_zero (c_start c_end r : ℝ) :
    coverage_scale_up c_start c_end r 0 = c_start := by
  unfold coverage_scale_up
  rw [Real.rpow_zero]
  ring

lemma adjust_coverage_level_eq_scale_up
    (clock intervention_start c_start c_end r : ℝ) :
    adjust_coverage_level clock intervention_start c_start c_start c_end r
      = coverage_scale_up c_start c_end r (max (clock - intervention_start) 0) := by
  unfold adjust_coverage_level
  by_cases h : 0 < max (clock - intervention_start) 0
  · simp only [h, if_true]
  · have h0 : max (clock - intervention_start) 0 = 0 :=
      le_antisymm (not_lt.mp h) (le_max_right _ _)
    simp only [h, if_false, h0, coverage_scale_up_zero, ite_self]

lemma coverage_scale_up_mono {c_start c_end r : ℝ}
    (hr0 : 0 < r) (hr1 : r < 1) (hc : c_start ≤ c_end) {t1 t2 : ℝ}
    (ht : t1 ≤ t2) :
    coverage_scale_up c_start c_end r t1 ≤ coverage_scale_up c_start c_end r t2 := by
  unfold coverage_scale_up
  have hb0 : (0 : ℝ) < 1 - r := by linarith
  have hb1 : (1 : ℝ) - r ≤ 1 := by linarith
  have hexp : (1 - r) ^ t2 ≤ (1 - r) ^ t1 :=
    Real.rpow_le_rpow_of_exponent_ge hb0 hb1 ht
  have hmul : (c_end - c_start) * (1 - r) ^ t2
      ≤ (c_end - c_start) * (1 - r) ^ t1 :=
    mul_le_mul_of_nonneg_left hexp (by linarith)
  linarith

lemma coverage_scale_up_bounds {c_start c_end r : ℝ}
    (hr0 : 0 < r) (hr1 : r < 1) (hc : c_start < c_end) {t : ℝ} (ht : 0 ≤ t) :
    c_start ≤ coverage_scale_up c_start c_end r t
      ∧ coverage_scale_up c_start c_end r t < c_end := by
  have hb0 : (0 : ℝ) < 1 - r := by linarith
  have hle1 : (1 - r : ℝ) ^ t ≤ 1 :=
    Real.rpow_le_one hb0.le (by linarith) ht
  have hpos : 0 < (1 - r : ℝ) ^ t := Real.rpow_pos_of_pos hb0 t
  unfold coverage_scale_up
  constructor
  · nlinarith
  · nlinarith

/-- C6: for an annual proportional-increase rate `r` in `(0,1)` and a target
coverage strictly above the baseline, the adjusted coverage level is
non-decreasing in the current time, satisfies
`baseline ≤ coverage_at(t) < target` for every finite time at or after the
intervention start, and for times before the intervention start the elapsed
time is clamped to zero so the unmodified incoming baseline coverage is
returned. -/
theorem coverage_level_monotone_bounded
    (intervention_start c_start c_end r : ℝ)
    (hr0 : 0 < r) (hr1 : r < 1) (hc : c_start < c_end) :
    (∀ t1 t2 : ℝ, t1 ≤ t2 →
        adjust_coverage_level t1 intervention_start c_start c_start c_end r
          ≤ adjust_coverage_level t2 intervention_start c_start c_start c_end r)
    ∧ (∀ t : ℝ, intervention_start ≤ t →
        c_start ≤ adjust_coverage_level t intervention_start c_start c_start c_end r
          ∧ adjust_coverage_level t intervention_start c_start c_start c_end r < c_end)
    ∧ (∀ coverage t : ℝ, t < intervention_start →
        adjust_coverage_level t intervention_start coverage c_start c_end r
          = coverage) := by
  refine ⟨?_, ?_, ?_⟩
  · intro t1 t2 ht
    rw [adjust_coverage_level_eq_scale_up, adjust_coverage_level_eq_scale_up]
    exact coverage_scale_up_mono hr0 hr1 hc.le
      (max_le_max (sub_le_sub_right ht _) le_rfl)
  · intro t _
    rw [adjust_coverage_level_eq_scale_up]
    exact coverage_scale_up_bounds hr0 hr1 hc (le_max_right _ _)
  · intro coverage t ht
    unfold adjust_coverage_level
    have h0 : max (t - intervention_start) 0 = 0 :=
      max_eq_right (by linarith)
    simp only [h0, lt_irrefl, if_false]

/-- Witness for C6 at the concrete scenario `r = 1/10`, baseline `0.227`,
target `0.838`, intervention start `0`. -/
theorem coverage_level_monotone_bounded_witness :
    adjust_coverage_level 1 0 (227/1000) (227/1000) (838/1000) (1/10)
      ≤ adjust_coverage_level 10 0 (227/1000) (227/1000) (838/1000) (1/10) :=
  (coverage_level_monotone_bounded 0 (227/1000) (838/1000) (1/10)
      (by norm_num) (by norm_num) (by norm_num)).1 1 10 (by norm_num)

/-- C5: for every clock time strictly before the intervention start plus the
fixed delay, the effective-coverage adjustment returns the incoming baseline
coverage value unchanged. -/
theorem effective_coverage_before_delay_is_baseline
    (clock intervention_start delay coverage c_start c_end r : ℝ)
    (h : clock < intervention_start + delay) :
    adjust_effective_coverage_level clock intervention_start delay coverage
      c_start c_end r = coverage := by
  unfold adjust_effective_coverage_level
  have h0 : max (clock - (intervention_start + delay)) 0 = 0 :=
    max_eq_right (by linarith)
  simp only [h0, lt_irrefl, if_false]

/-- Witness for C5: half a year into the simulation with a one-year delayed
intervention starting at time 1, the effective coverage equals the baseline
coverage `0.227`, not zero. -/
theorem effective_coverage_before_delay_is_baseline_witness :
    adjust_effective_coverage_level (1/2) 1 1 (227/1000) (227/1000)
      (838/1000) (1/10) = 227/1000 :=
  effective_coverage_before_delay_is_baseline (1/2) 1 1 (227/1000)
    (227/1000) (838/1000) (1/10) (by norm_num)

/-!
Empirical piecewise-linear quantile sampler, embedded from
`components/fortification/folic_acid.py` (`IronAmountDistribution.ppf`) and
`components/fortification/parameters.py` (`FLOUR_QUANTILES`).
-/

/-- Anchor points of the flour-consumption quantile table. -/
structure FlourQuantiles where
  Q0 : ℚ
  Q1 : ℚ
  Q2 : ℚ
  Q3 : ℚ
  Q4 : ℚ

/-- The flour quantile anchors from `parameters.py`. -/
def FLOUR_QUANTILES : FlourQuantiles :=
  { Q0 := 0, Q1 := 77.5, Q2 := 100, Q3 := 200, Q4 := 350.5 }

namespace IronAmountDistribution

/-- Piecewise-linear flour-consumption interpolation computed inside
`IronAmountDistribution.ppf`: the four quartile bands of the source are
disjoint masks, rendered here as an if-chain over the same conditions. -/
def flour_consumption (q : FlourQuantiles) (propensity : ℚ) : ℚ :=
  if propensity < 0.25 then
    propensity / 0.25 * q.Q1
  else if propensity < 0.50 then
    (propensity - 0.25) / 0.25 * (q.Q2 - q.Q1) + q.Q1
  else if propensity < 0.75 then
    (propensity - 0.50) / 0.25 * (q.Q3 - q.Q2) + q.Q2
  else
    (propensity - 0.75) / 0.25 * (q.Q4 - q.Q3) + q.Q3

/-- Embedding of `IronAmountDistribution.ppf`: the interpolated flour
consumption scaled by the iron content factor. -/
def ppf (q : FlourQuantiles) (ironRatio propensity : ℚ) : ℚ :=
  flour_consumption q propensity * ironRatio

end IronAmountDistribution

/-- C9: the piecewise-linear quantile sampler built from the flour anchors
`Q1 = 77.5`, `Q2 = 100`, `Q3 = 200`, `Q4 = 350.5`, evaluated at propensity
`0.6` (inside the third quartile band), returns
`Q2 + (0.6 - 0.5)/0.25 * (Q3 - Q2) = 140`; `ppf` scales that value by the
iron content factor. -/
theorem iron_amount_ppf_at_propensity_point_six :
    IronAmountDistribution.flour_consumption FLOUR_QUANTILES (6/10)
        = FLOUR_QUANTILES.Q2
          + (6/10 - 5/10) / (1/4) * (FLOUR_QUANTILES.Q3 - FLOUR_QUANTILES.Q2)
    ∧ IronAmountDistribution.flour_consumption FLOUR_QUANTILES (6/10) = 140
    ∧ ∀ ironRatio : ℚ,
        IronAmountDistribution.ppf FLOUR_QUANTILES ironRatio (6/10)
          = 140 * ironRatio := by
  refine ⟨?_, ?_, ?_⟩
  · norm_num [IronAmountDistribution.flour_consumption, FLOUR_QUANTILES]
  · norm_num [IronAmountDistribution.flour_consumption, FLOUR_QUANTILES]
  · intro ironRatio
    norm_num [IronAmountDistribution.ppf,
      IronAmountDistribution.flour_consumption, FLOUR_QUANTILES]

/-!
Maternal iron fortification effect on birth weight, embedded from
`components/fortification/folic_acid.py`
(`MaternalIronFortificationEffect.adjust_birth_weights`).  The vectorized
update is embedded per row: the baseline shift is subtracted from every row
of the index, and the per-individual fortified shift is added only on the
rows whose maternal fortification status is covered.
-/

namespace MaternalIronFortificationEffect

/-- One row of the population view used by the birth-weight adjustment. -/
structure Row where
  iron_fortified_mom : String
  iron_fort_food_consumption : ℚ
  birth_weight : ℚ

/-- Embedding of `MaternalIronFortificationEffect.adjust_birth_weights` for a
single row of the index. -/
def adjust_birth_weights (effect_fortified baseline_shift : ℚ)
    (row : Row) : ℚ :=
  let shifted := row.birth_weight - baseline_shift
  if row.iron_fortified_mom = "covered" then
    shifted + row.iron_fort_food_consumption * effect_fortified
  else shifted

end MaternalIronFortificationEffect

/-- C7: the baseline downward shift is subtracted from every individual in
the index unconditionally, and the per-individual fortification adjustment
(elemental iron consumed times the birth-weight effect) is added only for
individuals whose maternal fortification status is covered; hence an
uncovered individual has a net birth-weight change of exactly minus the baseline
shift. -/
theorem uncovered_birth_weight_shift_is_baseline
    (effect_fortified baseline_shift : ℚ)
    (row : MaternalIronFortificationEffect.Row) :
    (row.iron_fortified_mom ≠ "covered" →
      MaternalIronFortificationEffect.adjust_birth_weights effect_fortified
          baseline_shift row
        = row.birth_weight - baseline_shift)
    ∧ (row.iron_fortified_mom = "covered" →
      MaternalIronFortificationEffect.adjust_birth_weights effect_fortified
          baseline_shift row
        = row.birth_weight - baseline_shift
          + row.iron_fort_food_consumption * effect_fortified) := by
  constructor
  · intro h
    simp [MaternalIronFortificationEffect.adjust_birth_weights, h]
  · intro h
    simp [MaternalIronFortificationEffect.adjust_birth_weights, h]

/-- Witness for C7: an uncovered individual with birth weight 3000 and
baseline shift 5 ends at exactly 2995, regardless of the iron amount. -/
theorem uncovered_birth_weight_shift_is_baseline_witness :
    MaternalIronFortificationEffect.adjust_birth_weights 2 5
      { iron_fortified_mom := "uncovered",
        iron_fort_food_consumption := 3, birth_weight := 3000 } = 2995 := by
  have h := (uncovered_birth_weight_shift_is_baseline 2 5
    { iron_fortified_mom := "uncovered",
      iron_fort_food_consumption := 3, birth_weight := 3000 }).1 (by decide)
  norm_num at h
  exact h

/-!
Degenerate-parameter distribution sampling, embedded from `utilities.py`
(`sample_beta_distribution` and `sample_lognormal_distribution`).  The
underlying scipy sampler is embedded as an explicit function argument from
the seed and the native parameters, so that the short-circuit property can
be stated as independence from that argument.
-/

/-- Parameters of the scaled beta distribution from `utilities.py`. -/
structure BetaParams where
  upper_bound : ℚ
  lower_bound : ℚ
  alpha : ℚ
  beta : ℚ

/-- The support width computed in the `BetaParams` constructor. -/
def BetaParams.support_width (params : BetaParams) : ℚ :=
  params.upper_bound - params.lower_bound

/-- Embedding of `sample_beta_distribution`: equal bounds short-circuit to
the upper bound; otherwise the scaled draw of the underlying beta sampler is
returned. -/
def sample_beta_distribution (seed : ℕ) (params : BetaParams)
    (beta_rvs : ℕ → ℚ → ℚ → ℚ) : ℚ :=
  if params.upper_bound = params.lower_bound then params.upper_bound
  else
    params.lower_bound
      + params.support_width * beta_rvs seed params.alpha params.beta

/-- Parameters of the log-normal distribution from `utilities.py`. -/
structure LogNormParams where
  sigma : ℚ
  scale : ℚ

/-- Embedding of `sample_lognormal_distribution`: zero sigma short-circuits
to the scale (median); otherwise the underlying log-normal sampler is
invoked. -/
def sample_lognormal_distribution (seed : ℕ) (params : LogNormParams)
    (lognorm_rvs : ℕ → ℚ → ℚ → ℚ) : ℚ :=
  if params.sigma = 0 then params.scale
  else lognorm_rvs seed params.sigma params.scale

/-- C8: a scaled beta distribution whose upper bound equals its lower bound
samples to exactly that bound, and a log-normal distribution with zero sigma
samples to exactly its scale (median), in both cases for every seed and
independently of the underlying random sampler. -/
theorem degenerate_distributions_short_circuit :
    (∀ params : BetaParams, params.upper_bound = params.lower_bound →
      ∀ (seed : ℕ) (beta_rvs : ℕ → ℚ → ℚ → ℚ),
        sample_beta_distribution seed params beta_rvs = params.upper_bound)
    ∧ (∀ params : LogNormParams, params.sigma = 0 →
      ∀ (seed : ℕ) (lognorm_rvs : ℕ → ℚ → ℚ → ℚ),
        sample_lognormal_distribution seed params lognorm_rvs
          = params.scale) := by
  constructor
  · intro params h seed beta_rvs
    simp [sample_beta_distribution, h]
  · intro params h seed lognorm_rvs
    simp [sample_lognormal_distribution, h]

/-- Witness for C8: two different seeds and two different underlying
samplers for the degenerate beta, and one degenerate log-normal. -/
theorem degenerate_distributions_short_circuit_witness :
    sample_beta_distribution 0 ⟨3, 3, 1, 2⟩ (fun _ _ _ => 99) = 3
    ∧ sample_beta_distribution 12345 ⟨3, 3, 1, 2⟩ (fun _ _ _ => -7) = 3
    ∧ sample_lognormal_distribution 0 ⟨0, 5⟩ (fun _ _ _ => 42) = 5 :=
  ⟨degenerate_distributions_short_circuit.1 _ rfl 0 _,
   degenerate_distributions_short_circuit.1 _ rfl 12345 _,
   degenerate_distributions_short_circuit.2 _ rfl 0 _⟩

/-!
Anemia severity threshold classifier, embedded from
`components/disease.py` (`IronDeficiency._get_severity`).  The source
builds three boolean masks over the population and writes the labels in the
order mild, moderate, severe onto a default of none; since later writes win,
this is the if-chain below with severe checked first.
-/

/-- The neonatal age cutoff `to_years(pd.Timedelta(days=28))` in years. -/
def neonatal_age_cutoff : ℚ := 28 / 365.25

namespace IronDeficiency

/-- The mild-anemia mask of `IronDeficiency._get_severity`. -/
def mild_mask (age hgb : ℚ) : Prop :=
  (age < neonatal_age_cutoff ∧ 130 ≤ hgb ∧ hgb < 150)
    ∨ (¬(age < neonatal_age_cutoff) ∧ 100 ≤ hgb ∧ hgb < 110)

/-- The moderate-anemia mask of `IronDeficiency._get_severity`. -/
def moderate_mask (age hgb : ℚ) : Prop :=
  (age < neonatal_age_cutoff ∧ 90 ≤ hgb ∧ hgb < 130)
    ∨ (¬(age < neonatal_age_cutoff) ∧ 70 ≤ hgb ∧ hgb < 100)

/-- The severe-anemia mask of `IronDeficiency._get_severity`. -/
def severe_mask (age hgb : ℚ) : Prop :=
  (age < neonatal_age_cutoff ∧ hgb < 90)
    ∨ (¬(age < neonatal_age_cutoff) ∧ hgb < 70)

instance instDecidableMildMask (age hgb : ℚ) : Decidable (mild_mask age hgb) :=
  inferInstanceAs (Decidable
    ((age < neonatal_age_cutoff ∧ 130 ≤ hgb ∧ hgb < 150)
      ∨ (¬(age < neonatal_age_cutoff) ∧ 100 ≤ hgb ∧ hgb < 110)))

instance instDecidableModerateMask (age hgb : ℚ) :
    Decidable (moderate_mask age hgb) :=
  inferInstanceAs (Decidable
    ((age < neonatal_age_cutoff ∧ 90 ≤ hgb ∧ hgb < 130)
      ∨ (¬(age < neonatal_age_cutoff) ∧ 70 ≤ hgb ∧ hgb < 100)))

instance instDecidableSevereMask (age hgb : ℚ) :
    Decidable (severe_mask age hgb) :=
  inferInstanceAs (Decidable
    ((age < neonatal_age_cutoff ∧ hgb < 90)
      ∨ (¬(age < neonatal_age_cutoff) ∧ hgb < 70)))

/-- Embedding of `IronDeficiency._get_severity` for one individual. -/
def get_severity (age hgb : ℚ) : String :=
  if severe_mask age hgb then "severe"
  else if moderate_mask age hgb then "moderate"
  else if mild_mask age hgb then "mild"
  else "none"

lemma mild_moderate_exclusive (age hgb : ℚ) :
    ¬(mild_mask age hgb ∧ moderate_mask age hgb) := by
  unfold mild_mask moderate_mask
  rintro ⟨h1 | h1, h2 | h2⟩
  · linarith [h1.2.1, h2.2.2]
  · exact h2.1 h1.1
  · exact h1.1 h2.1
  · linarith [h1.2.1, h2.2.2]

lemma mild_severe_exclusive (age hgb : ℚ) :
    ¬(mild_mask age hgb ∧ severe_mask age hgb) := by
  unfold mild_mask severe_mask
  rintro ⟨h1 | h1, h2 | h2⟩
  · linarith [h1.2.1, h2.2]
  · exact h2.1 h1.1
  · exact h1.1 h2.1
  · linarith [h1.2.1, h2.2]

lemma moderate_severe_exclusive (age hgb : ℚ) :
    ¬(moderate_mask age hgb ∧ severe_mask age hgb) := by
  unfold moderate_mask severe_mask
  rintro ⟨h1 | h1, h2 | h2⟩
  · linarith [h1.2.1, h2.2]
  · exact h2.1 h1.1
  · exact h1.1 h2.1
  · linarith [h1.2.1, h2.2]

end IronDeficiency

/-- C10: for every rational hemoglobin exposure and age, the anemia severity
classifier assigns exactly one of none, mild, moderate, severe (the three
non-default masks are mutually exclusive, each mask forces its own label,
and the default none applies exactly when no mask holds), and boundary
values fall on the closed-left, open-right side: non-neonatal hemoglobin
exactly 110 is none, exactly 100 is mild, exactly 70 is moderate; neonatal
hemoglobin exactly 150 is none, exactly 130 is mild, exactly 90 is
moderate. -/
theorem anemia_severity_classifier_exhaustive_exclusive :
    (∀ age hgb : ℚ,
      (¬(IronDeficiency.mild_mask age hgb ∧ IronDeficiency.moderate_mask age hgb)
        ∧ ¬(IronDeficiency.mild_mask age hgb ∧ IronDeficiency.severe_mask age hgb)
        ∧ ¬(IronDeficiency.moderate_mask age hgb ∧ IronDeficiency.severe_mask age hgb))
      ∧ (IronDeficiency.get_severity age hgb = "none"
          ∨ IronDeficiency.get_severity age hgb = "mild"
          ∨ IronDeficiency.get_severity age hgb = "moderate"
          ∨ IronDeficiency.get_severity age hgb = "severe")
      ∧ (IronDeficiency.severe_mask age hgb →
          IronDeficiency.get_severity age hgb = "severe")
      ∧ (IronDeficiency.moderate_mask age hgb →
          IronDeficiency.get_severity age hgb = "moderate")
      ∧ (IronDeficiency.mild_mask age hgb →
          IronDeficiency.get_severity age hgb = "mild")
      ∧ (¬IronDeficiency.severe_mask age hgb →
          ¬IronDeficiency.moderate_mask age hgb →
          ¬IronDeficiency.mild_mask age hgb →
          IronDeficiency.get_severity age hgb = "none"))
    ∧ IronDeficiency.get_severity 1 110 = "none"
    ∧ IronDeficiency.get_severity 1 100 = "mild"
    ∧ IronDeficiency.get_severity 1 70 = "moderate"
    ∧ IronDeficiency.get_severity 0 150 = "none"
    ∧ IronDeficiency.get_severity 0 130 = "mild"
    ∧ IronDeficiency.get_severity 0 90 = "moderate" := by
  refine ⟨?_, ?_, ?_, ?_, ?_, ?_, ?_⟩
  case refine_2 =>
    norm_num [IronDeficiency.get_severity, IronDeficiency.severe_mask,
      IronDeficiency.moderate_mask, IronDeficiency.mild_mask,
      neonatal_age_cutoff]
  case refine_3 =>
    norm_num [IronDeficiency.get_severity, IronDeficiency.severe_mask,
      IronDeficiency.moderate_mask, IronDeficiency.mild_mask,
      neonatal_age_cutoff]
  case refine_4 =>
    norm_num [IronDeficiency.get_severity, IronDeficiency.severe_mask,
      IronDeficiency.moderate_mask, IronDeficiency.mild_mask,
      neonatal_age_cutoff]
  case refine_5 =>
    norm_num [IronDeficiency.get_severity, IronDeficiency.severe_mask,
      IronDeficiency.moderate_mask, IronDeficiency.mild_mask,
      neonatal_age_cutoff]
  case refine_6 =>
    norm_num [IronDeficiency.get_severity, IronDeficiency.severe_mask,
      IronDeficiency.moderate_mask, IronDeficiency.mild_mask,
      neonatal_age_cutoff]
  case refine_7 =>
    norm_num [IronDeficiency.get_severity, IronDeficiency.severe_mask,
      IronDeficiency.moderate_mask, IronDeficiency.mild_mask,
      neonatal_age_cutoff]
  intro age hgb
  have hmm := IronDeficiency.mild_moderate_exclusive age hgb
  have hms := IronDeficiency.mild_severe_exclusive age hgb
  have hos := IronDeficiency.moderate_severe_exclusive age hgb
  refine ⟨⟨hmm, hms, hos⟩, ?_, ?_, ?_, ?_, ?_⟩
  · unfold IronDeficiency.get_severity
    split_ifs <;> simp
  · intro h
    unfold IronDeficiency.get_severity
    rw [if_pos h]
  · intro h
    unfold IronDeficiency.get_severity
    rw [if_neg (fun hs => hos ⟨h, hs⟩), if_pos h]
  · intro h
    unfold IronDeficiency.get_severity
    rw [if_neg (fun hs => hms ⟨h, hs⟩), if_neg (fun hm => hmm ⟨h, hm⟩),
      if_pos h]
  · intro h1 h2 h3
    unfold IronDeficiency.get_severity
    rw [if_neg h1, if_neg h2, if_neg h3]

/-- Witness for C10 at a concrete non-neonatal boundary input. -/
theorem anemia_severity_classifier_witness :
    IronDeficiency.get_severity 1 110 = "none" :=
  anemia_severity_classifier_exhaustive_exclusive.2.1

/-!
Vitamin A deficiency state update, embedded from `components/disease.py`
(`VitaminADeficiency.on_time_step`).  The state labels are those built in
the globals module: the with-condition state is the model name and the
without-condition state is the susceptible state name.
-/

/-- The with-condition state label of the vitamin A deficiency model. -/
def VITAMIN_A_WITH_CONDITION_STATE_NAME : String := "vitamin_a_deficiency"

/-- The without-condition (susceptible) state label of the vitamin A
deficiency model. -/
def VITAMIN_A_SUSCEPTIBLE_STATE_NAME : String :=
  "susceptible_to_vitamin_a_deficiency"

namespace VitaminADeficiency

/-- One row of the vitamin A population view: the state column and the
event-time and event-count columns of both states.  A missing event time
(`pd.NaT`) is `none`. -/
structure Row where
  state : String
  bad_event_time : Option ℚ
  bad_event_count : ℕ
  good_event_time : Option ℚ
  good_event_count : ℕ
  deriving DecidableEq

/-- Embedding of `VitaminADeficiency.on_time_step` for a single row.
`current_disease_status` is the remapped exposure pipeline output and
`event_time` the current simulation time.  The source computes
`remitted_cases` with the same mask as `incident_cases` (old status good and
current status bad); this embedding reproduces that mask verbatim. -/
def on_time_step (row : Row) (current_disease_status : String)
    (event_time : ℚ) : Row :=
  let old_disease_status := row.state
  let incident_cases :=
    old_disease_status == VITAMIN_A_SUSCEPTIBLE_STATE_NAME
      && current_disease_status == VITAMIN_A_WITH_CONDITION_STATE_NAME
  let remitted_cases :=
    old_disease_status == VITAMIN_A_SUSCEPTIBLE_STATE_NAME
      && current_disease_status == VITAMIN_A_WITH_CONDITION_STATE_NAME
  { state := current_disease_status
    bad_event_time :=
      if incident_cases then some event_time else row.bad_event_time
    good_event_time :=
      if remitted_cases then some event_time else row.good_event_time
    bad_event_count :=
      if incident_cases then row.bad_event_count + 1 else row.bad_event_count
    good_event_count :=
      if remitted_cases then row.good_event_count + 1
      else row.good_event_count }

end VitaminADeficiency

/-- C1: the faulty remission mask.  An individual moving from the
with-condition state to the susceptible (recovered) state has neither the
recovery event-time stamped nor the recovery event-count incremented, and an
individual moving from susceptible to with-condition has the susceptible
event columns written in addition to the with-condition ones, because
`remitted_cases` is computed with the same mask as `incident_cases`. -/
theorem vad_recovery_event_not_stamped :
    VitaminADeficiency.on_time_step
        ⟨VITAMIN_A_WITH_CONDITION_STATE_NAME, none, 0, none, 0⟩
        VITAMIN_A_SUSCEPTIBLE_STATE_NAME 5
      = ⟨VITAMIN_A_SUSCEPTIBLE_STATE_NAME, none, 0, none, 0⟩
    ∧ VitaminADeficiency.on_time_step
        ⟨VITAMIN_A_SUSCEPTIBLE_STATE_NAME, none, 0, none, 0⟩
        VITAMIN_A_WITH_CONDITION_STATE_NAME 5
      = ⟨VITAMIN_A_WITH_CONDITION_STATE_NAME, some 5, 1, some 5, 1⟩ := by
  decide

/-!
Hemoglobin iron fortification shift, embedded from
`components/fortification/folic_acid.py`
(`HemoglobinIronFortificationEffect.compute_shift`).  The source splits the
covered population into four quadrants by coverage-start age (boundary 1.5
years) and coverage duration (boundary 0.5 years) and assigns one formula
per quadrant; the quadrants are disjoint, so the assignment is the if-chain
below.
-/

namespace HemoglobinIronFortificationEffect

/-- Quadrant formula for coverage-start age below 1.5 and coverage duration
below 0.5. -/
def young_short_shift (effect age coverage_duration : ℚ) : ℚ :=
  effect * (age / 1.5) * (coverage_duration / 0.5)

/-- Quadrant formula for coverage-start age below 1.5 and coverage duration
at least 0.5. -/
def young_long_shift (effect age : ℚ) : ℚ :=
  effect * (age - 0.5) / 1.5

/-- Quadrant formula for coverage-start age at least 1.5 and coverage
duration below 0.5. -/
def older_short_shift (effect age : ℚ) : ℚ :=
  effect * (age - 0.5)

/-- Quadrant formula for coverage-start age at least 1.5 and coverage
duration at least 0.5: the constant full effect. -/
def older_long_shift (effect : ℚ) : ℚ :=
  effect

/-- Embedding of `HemoglobinIronFortificationEffect.compute_shift` for one
covered row with the given age and coverage-start age. -/
def compute_shift (effect age coverage_start_age : ℚ) : ℚ :=
  let coverage_duration := age - coverage_start_age
  if coverage_start_age < 1.5 ∧ coverage_duration < 0.5 then
    young_short_shift effect age coverage_duration
  else if coverage_start_age < 1.5 ∧ 0.5 ≤ coverage_duration then
    young_long_shift effect age
  else if 1.5 ≤ coverage_start_age ∧ coverage_duration < 0.5 then
    older_short_shift effect age
  else
    older_long_shift effect

end HemoglobinIronFortificationEffect

/-- C2: the quadrant formulas are not continuous at the shared boundaries.
With effect 1 and coverage-start age 1, the young/short formula evaluated at
duration 0.5 (age 1.5) yields 1 while the young/long formula there yields
2/3, and `compute_shift` takes the value 2/3; with coverage-start age 1.5,
the older/short formula at duration 0.5 (age 2) yields 3/2 while the
older/long formula yields the constant 1, and `compute_shift` jumps from 7/5
at duration 0.4 to 1 at duration 0.5. -/
theorem hemoglobin_shift_discontinuous_at_boundaries :
    HemoglobinIronFortificationEffect.young_short_shift 1 1.5 0.5 = 1
    ∧ HemoglobinIronFortificationEffect.young_long_shift 1 1.5 = 2/3
    ∧ HemoglobinIronFortificationEffect.compute_shift 1 1.5 1 = 2/3
    ∧ HemoglobinIronFortificationEffect.older_short_shift 1 2 = 3/2
    ∧ HemoglobinIronFortificationEffect.older_long_shift 1 = 1
    ∧ HemoglobinIronFortificationEffect.compute_shift 1 2 1.5 = 1
    ∧ HemoglobinIronFortificationEffect.compute_shift 1 (19/10) (3/2) = 7/5 := by
  refine ⟨?_, ?_, ?_, ?_, ?_, ?_, ?_⟩ <;>
    norm_num [HemoglobinIronFortificationEffect.young_short_shift,
      HemoglobinIronFortificationEffect.young_long_shift,
      HemoglobinIronFortificationEffect.older_short_shift,
      HemoglobinIronFortificationEffect.older_long_shift,
      HemoglobinIronFortificationEffect.compute_shift]

/-!
Transition-count tabulation, embedded from `components/observers.py`
(`get_transition_count`, driven by `DiseaseObserver.on_collect_metrics`).
The tabulated quantity for one transition is the number of rows whose
previous-state and current-state columns match the transition endpoints;
the group-count aggregation with an empty filter and no age or sex strata
is the plain count of the selected rows.
-/

/-- Modelled from the spec: the `TransitionString` values carried by
`DISEASE_MODEL_MAP` expose the two endpoint state names of a named
transition; the class itself is referenced from the globals module but its
definition is not part of the source tree. -/
structure TransitionString where
  from_state : String
  to_state : String
  deriving DecidableEq

/-- One row of the disease observer population view. -/
structure ObserverRow where
  previous_state : String
  current_state : String
  deriving DecidableEq

/-- Embedding of `get_transition_count` from `observers.py` for one
transition: rows transition this step exactly when the previous-state
column equals the transition source and the state column equals the
transition sink. -/
def get_transition_count (pop : List ObserverRow)
    (transition : TransitionString) : ℕ :=
  (pop.filter fun row =>
    row.previous_state == transition.from_state
      && row.current_state == transition.to_state).length

/-- The vitamin A deficiency state set from the globals module. -/
def VITAMIN_A_MODEL_STATES : List String :=
  [VITAMIN_A_SUSCEPTIBLE_STATE_NAME, VITAMIN_A_WITH_CONDITION_STATE_NAME]

/-- The vitamin A deficiency transition set from the globals module. -/
def VITAMIN_A_MODEL_TRANSITIONS : List TransitionString :=
  [⟨VITAMIN_A_SUSCEPTIBLE_STATE_NAME, VITAMIN_A_WITH_CONDITION_STATE_NAME⟩,
   ⟨VITAMIN_A_WITH_CONDITION_STATE_NAME, VITAMIN_A_SUSCEPTIBLE_STATE_NAME⟩]

/-- C3 counterexample: a population consisting of one individual whose
previous-state column holds the empty string (the value written at simulant
initialization, matching no known state) is tabulated without any error:
every transition count of the vitamin A model evaluates to zero, so the
individual is silently excluded rather than processing being halted. -/
theorem unknown_state_yields_zero_counts_no_halt :
    VITAMIN_A_MODEL_TRANSITIONS.map
        (get_transition_count [⟨"", VITAMIN_A_WITH_CONDITION_STATE_NAME⟩])
      = [0, 0] := by
  decide

/-- C3 amended: a row whose previous-state (or current-state) column value
matches no state of the vitamin A model contributes to no transition count;
tabulation completes normally with that row silently excluded from every
count. -/
theorem unknown_state_silently_excluded
    (row : ObserverRow) (pop : List ObserverRow)
    (h : row.previous_state ∉ VITAMIN_A_MODEL_STATES
        ∨ row.current_state ∉ VITAMIN_A_MODEL_STATES) :
    ∀ t ∈ VITAMIN_A_MODEL_TRANSITIONS,
      get_transition_count (row :: pop) t = get_transition_count pop t := by
  intro t ht
  have hends : t.from_state ∈ VITAMIN_A_MODEL_STATES
      ∧ t.to_state ∈ VITAMIN_A_MODEL_STATES := by
    simp only [VITAMIN_A_MODEL_TRANSITIONS, List.mem_cons,
      List.mem_singleton, List.not_mem_nil, or_false] at ht
    rcases ht with rfl | rfl <;> simp [VITAMIN_A_MODEL_STATES]
  have hcond : (row.previous_state == t.from_state
      && row.current_state == t.to_state) = false := by
    rcases h with h | h
    · have hne : row.previous_state ≠ t.from_state :=
        fun he => h (he ▸ hends.1)
      simp [hne]
    · have hne : row.current_state ≠ t.to_state :=
        fun he => h (he ▸ hends.2)
      simp [hne]
  unfold get_transition_count
  simp [List.filter_cons, hcond]

/-- Witness for C3: prepending the unknown-state row to a population does
not change the incidence transition count. -/
theorem unknown_state_silently_excluded_witness :
    get_transition_count
        [⟨"", VITAMIN_A_WITH_CONDITION_STATE_NAME⟩,
         ⟨VITAMIN_A_SUSCEPTIBLE_STATE_NAME, VITAMIN_A_WITH_CONDITION_STATE_NAME⟩]
        ⟨VITAMIN_A_SUSCEPTIBLE_STATE_NAME, VITAMIN_A_WITH_CONDITION_STATE_NAME⟩
      = get_transition_count
        [⟨VITAMIN_A_SUSCEPTIBLE_STATE_NAME, VITAMIN_A_WITH_CONDITION_STATE_NAME⟩]
        ⟨VITAMIN_A_SUSCEPTIBLE_STATE_NAME, VITAMIN_A_WITH_CONDITION_STATE_NAME⟩ :=
  unknown_state_silently_excluded
    ⟨"", VITAMIN_A_WITH_CONDITION_STATE_NAME⟩
    [⟨VITAMIN_A_SUSCEPTIBLE_STATE_NAME, VITAMIN_A_WITH_CONDITION_STATE_NAME⟩]
    (Or.inl (by decide))
    ⟨VITAMIN_A_SUSCEPTIBLE_STATE_NAME, VITAMIN_A_WITH_CONDITION_STATE_NAME⟩
    (by decide)

/-!
Results stratification, embedded from `components/observers.py`
(`ResultsStratifier.group`).  The subgroups are produced by iterating the
itertools product of the folic acid and vitamin A stratification labels;
for an empty population the unfiltered (empty) population is yielded for
every label pair.
-/

/-- One row of a population snapshot together with its two stratification
labels (the outputs of `ResultsStratifier.folic_acid_covered` and
`ResultsStratifier.vitamin_a_covered`). -/
structure StratifiedRow where
  folic_acid_group : String
  vitamin_a_group : String
  deriving DecidableEq

namespace ResultsStratifier

/-- Embedding of `ResultsStratifier.group`: one yielded pair per element of
the product of the two label lists, in product order. -/
def group (folic_acid_groups vitamin_a_groups : List String)
    (population : List StratifiedRow) :
    List ((String × String) × List StratifiedRow) :=
  (folic_acid_groups ×ˢ vitamin_a_groups).map fun labels =>
    (labels,
      if population.isEmpty then population
      else population.filter fun row =>
        row.folic_acid_group == labels.1 && row.vitamin_a_group == labels.2)

end ResultsStratifier

/-- Modelled from the spec: the folic acid stratification labels
`FOLIC_ACID_FORTIFICATION_GROUPS` are referenced from the globals module but
are not part of the source tree; the folic acid coverage column takes
exactly the values written in
`FolicAcidAndIronFortificationCoverage.on_initialize_simulants`. -/
def FOLIC_ACID_FORTIFICATION_GROUPS : List String :=
  ["covered", "uncovered", "unknown"]

/-- Modelled from the spec: the vitamin A stratification labels
`VITAMIN_A_FORTIFICATION_GROUPS` are referenced from the globals module but
are not part of the source tree; the rewritten coverage takes exactly the
values written in `ResultsStratifier.vitamin_a_covered`. -/
def VITAMIN_A_FORTIFICATION_GROUPS : List String :=
  ["uncovered", "covered", "effectively_covered"]

/-- C4: for every input population (including the empty one), the results
stratifier yields exactly one subgroup per element of the Cartesian product
of the two label lists: the yielded label pairs are exactly the product, the
product has no duplicates when the label lists have none, the number of
yielded subgroups is the product of the label-list lengths regardless of the
population, and every label pair of the product is yielded with some
(possibly empty) subgroup. -/
theorem stratifier_group_exact_product
    (folic_acid_groups vitamin_a_groups : List String)
    (population : List StratifiedRow)
    (hfa : folic_acid_groups.Nodup) (hva : vitamin_a_groups.Nodup) :
    ((ResultsStratifier.group folic_acid_groups vitamin_a_groups
        population).map Prod.fst
      = folic_acid_groups ×ˢ vitamin_a_groups)
    ∧ (folic_acid_groups ×ˢ vitamin_a_groups).Nodup
    ∧ (ResultsStratifier.group folic_acid_groups vitamin_a_groups
        population).length
      = folic_acid_groups.length * vitamin_a_groups.length
    ∧ ∀ labels ∈ folic_acid_groups ×ˢ vitamin_a_groups,
        ∃ subgroup, (labels, subgroup)
          ∈ ResultsStratifier.group folic_acid_groups vitamin_a_groups
              population := by
  refine ⟨?_, hfa.product hva, ?_, ?_⟩
  · simp only [ResultsStratifier.group, List.map_map]
    exact List.map_id _
  · simp [ResultsStratifier.group, List.length_product]
  · intro labels hl
    exact ⟨_, List.mem_map_of_mem _ hl⟩

/-- Witness for C4 at the concrete label lists and a one-row population. -/
theorem stratifier_group_exact_product_witness :
    (ResultsStratifier.group FOLIC_ACID_FORTIFICATION_GROUPS
        VITAMIN_A_FORTIFICATION_GROUPS
        [⟨"covered", "uncovered"⟩]).map Prod.fst
      = FOLIC_ACID_FORTIFICATION_GROUPS ×ˢ VITAMIN_A_FORTIFICATION_GROUPS :=
  (stratifier_group_exact_product FOLIC_ACID_FORTIFICATION_GROUPS
    VITAMIN_A_FORTIFICATION_GROUPS [⟨"covered", "uncovered"⟩]
    (by decide) (by decide)).1

end LSFF
